import Mathlib

/-!
Verification of the minipad firmware (single-file Arduino sketch
`minipad-firmware.ino`) against its natural-language specification.

The firmware's global data and functions are shallowly embedded as Lean
definitions:

* `Configuration` mirrors the C `struct Configuration`; C `int` fields are
  modelled as unbounded `Int` (all validated ranges are far below any
  machine-int bound, so overflow never matters for these claims) and the
  `char` key codes as their integer codes.
* `mapToRange400` mirrors the C function of the same name; the C `float`
  ratio is modelled in exact rational arithmetic (the spec §4.1 itself
  states the contract with a real-valued ratio), with C `round`
  (half away from zero) embedded as `roundC`.
* The actuation pass of `loop()` (lines 121-176) becomes `keyStep` /
  `actuate`; the globals `key1Pressed`/`lastRapidTriggerValueKey1` (and the
  key-2 twins) become a `KeyState` per key, initial values `false`/`0`.
* `handleSerialInput` becomes `procCmd`/`procLine`/`procLines`, with
  `getValue`, `atoiC` (libc `atoi`), `trimC` (Arduino `String::trim`) and
  the int/char/bool coercion chain (`coerce`) ported statement by
  statement.  Serial output and EEPROM writes are collected as `Effect`s.
* `setup()`'s EEPROM load and safe-mode check become `setupStep`.
-/

/-- `#define TOLERANCE 8` (minipad-firmware.ino line 15). -/
def TOLERANCE : Int := 8

/-- `#define CONFIG_UID 2247` (line 67). -/
def CONFIG_UID : Int := 2247

/-- `#define FIRMWARE_VERSION "20221219.2"` (line 18). -/
def FIRMWARE_VERSION : String := "20221219.2"

/-- `#define SAFEMODE_BOUNDARY 20` (line 11). -/
def SAFEMODE_BOUNDARY : Int := 20

/-- The C `struct Configuration` (lines 25-60).  `char key1/key2` are kept
as their integer character codes. -/
structure Configuration where
  uid : Int
  name : String
  rapidTrigger : Bool
  rapidTriggerSensitivity : Int
  lowerHysteresis : Int
  upperHysteresis : Int
  key1 : Int
  key2 : Int
  key1RestPosition : Int
  key2RestPosition : Int
  key1DownPosition : Int
  key2DownPosition : Int
  key1HIDEnabled : Bool
  key2HIDEnabled : Bool
deriving DecidableEq, Repr

/-- `Configuration defaultConfig = { CONFIG_UID, "minipad", true, 10, 300,
330, 'x', 'y', 450, 450, 150, 150, true, true }` (line 68); `'x' = 120`,
`'y' = 121`. -/
def defaultConfig : Configuration :=
  { uid := CONFIG_UID
    name := "minipad"
    rapidTrigger := true
    rapidTriggerSensitivity := 10
    lowerHysteresis := 300
    upperHysteresis := 330
    key1 := 120
    key2 := 121
    key1RestPosition := 450
    key2RestPosition := 450
    key1DownPosition := 150
    key2DownPosition := 150
    key1HIDEnabled := true
    key2HIDEnabled := true }

/-- C `round` on the exact value: round half away from zero. -/
def roundC (q : ℚ) : Int := if 0 ≤ q then ⌊q + 1/2⌋ else ⌈q - 1/2⌉

/-- `int mapToRange400(int value, int min, int max)` (lines 392-397):
`float multiplier = (value - min) * 1.0 / (max - min);
 return min(max(round(multiplier * 400), 0), 400);`
with the float ratio taken exactly. -/
def mapToRange400 (value mn mx : Int) : Int :=
  let multiplier : ℚ := ((value : ℚ) - (mn : ℚ)) * 1 / ((mx : ℚ) - (mn : ℚ))
  min (max (roundC (multiplier * 400)) 0) 400

/-- Modelled from the spec (§4.1): `normalize(raw, low, high)` computes
`t = (raw - low) / (high - low)` as a real-valued ratio and returns
`round(t * 400)` clamped into `[0, 400]`.  Stated separately from
`mapToRange400` so the two can be compared. -/
def specNormalize (raw low high : Int) : Int :=
  min (max (roundC (((raw : ℚ) - (low : ℚ)) / ((high : ℚ) - (low : ℚ)) * 400)) 0) 400

/-- Per-key transient actuation state: the globals
`key1Pressed`/`lastRapidTriggerValueKey1` (lines 76-81), and their key-2
twins. -/
structure KeyState where
  pressed : Bool
  lastRapidTriggerValue : Int
deriving DecidableEq, Repr

/-- A call into the host-input capability (`Keyboard.press` /
`Keyboard.release`). -/
inductive KeyEvent where
  | press (code : Int)
  | release (code : Int)
deriving DecidableEq, Repr

/-- The extremum update (lines 151-152 / 160-161): `if((pressed && value <
last) || (!pressed && value > last)) last = value;`, evaluated with the
post-transition pressed state. -/
def rtUpdate (pressed : Bool) (last v : Int) : Int :=
  if (pressed = true ∧ v < last) ∨ (pressed = false ∧ v > last) then v else last

/-- One key's actuation pass of `loop()` (lines 138-176), parameterized by
the key's code, HID-enable flag, transient state and current normalized
value `v`.  `pressKeyN`/`releaseKeyN` (lines 399-425) set the pressed flag
unconditionally and emit the HID event only when the flag is enabled; the
extremum update that follows the transition check reads the
post-transition pressed flag. -/
def keyStep (c : Configuration) (code : Int) (hid : Bool) (s : KeyState) (v : Int) :
    KeyState × List KeyEvent :=
  if c.rapidTrigger then
    if v ≤ s.lastRapidTriggerValue - c.rapidTriggerSensitivity ∧ s.pressed = false then
      ⟨⟨true, rtUpdate true s.lastRapidTriggerValue v⟩,
        if hid then [KeyEvent.press code] else []⟩
    else if v ≥ s.lastRapidTriggerValue + c.rapidTriggerSensitivity ∧ s.pressed = true then
      ⟨⟨false, rtUpdate false s.lastRapidTriggerValue v⟩,
        if hid then [KeyEvent.release code] else []⟩
    else
      ⟨⟨s.pressed, rtUpdate s.pressed s.lastRapidTriggerValue v⟩, []⟩
  else
    if v ≤ c.lowerHysteresis ∧ s.pressed = false then
      ⟨⟨true, s.lastRapidTriggerValue⟩, if hid then [KeyEvent.press code] else []⟩
    else if v ≥ c.upperHysteresis ∧ s.pressed = true then
      ⟨⟨false, s.lastRapidTriggerValue⟩, if hid then [KeyEvent.release code] else []⟩
    else
      ⟨⟨s.pressed, s.lastRapidTriggerValue⟩, []⟩

/-- Both keys' actuation pass of one `loop()` iteration, on already
normalized values `v1`, `v2`. -/
def actuate (c : Configuration) (k1 k2 : KeyState) (v1 v2 : Int) :
    (KeyState × KeyState) × List KeyEvent :=
  let r1 := keyStep c c.key1 c.key1HIDEnabled k1 v1
  let r2 := keyStep c c.key2 c.key2HIDEnabled k2 v2
  ((r1.1, r2.1), r1.2 ++ r2.2)

/-- Iterated actuation over a sequence of normalized sample pairs. -/
def actuateRun (c : Configuration) (ks : KeyState × KeyState)
    (vs : List (Int × Int)) : KeyState × KeyState :=
  vs.foldl (fun p v => (actuate c p.1 p.2 v.1 v.2).1) ks

/-- The firmware's whole mutable state: the global `config` plus both keys'
transient actuation state. -/
structure SysState where
  config : Configuration
  key1 : KeyState
  key2 : KeyState
deriving DecidableEq, Repr

/-- Global-variable initial values: `key1Pressed = key2Pressed = false`,
`lastRapidTriggerValueKey1 = lastRapidTriggerValueKey2 = 0`
(lines 76-81). -/
def initState (c : Configuration) : SysState :=
  ⟨c, ⟨false, 0⟩, ⟨false, 0⟩⟩

example : rtUpdate true 10 7 = 7 := by decide
example : mapToRange400 150 150 450 = 0 := by norm_num [mapToRange400, roundC]
example : mapToRange400 450 150 450 = 400 := by norm_num [mapToRange400, roundC]
example : mapToRange400 300 150 450 = 200 := by norm_num [mapToRange400, roundC]

/-- Whitespace test matching C `isspace`, as used by Arduino
`String::trim`: space, tab, newline, vertical tab, form feed, carriage
return. -/
def isSpaceC (c : Char) : Bool :=
  c == ' ' || c == '\t' || c == '\n' || c == Char.ofNat 11 || c == Char.ofNat 12 || c == '\r'

/-- Arduino `String::trim()`: strips leading and trailing `isspace`
characters. -/
def trimC (s : String) : String :=
  String.mk (((s.toList.dropWhile isSpaceC).reverse.dropWhile isSpaceC).reverse)

/-- Value of the leading decimal-digit run of a character list. -/
def digitsVal (cs : List Char) : Int :=
  (cs.takeWhile (fun c => c.isDigit)).foldl
    (fun acc c => acc * 10 + ((c.toNat : Int) - 48)) 0

/-- libc `atoi` (line 262): skip leading whitespace, optional sign, value
of the leading digit run (`0` when there are no digits).  Modelled without
machine-int overflow: every token whose canonical decimal text matches
(the only case in which the parsed value is used, line 263) is far below
any overflow bound in all validated ranges. -/
def atoiC (s : String) : Int :=
  match s.toList.dropWhile isSpaceC with
  | '-' :: rest => - digitsVal rest
  | '+' :: rest => digitsVal rest
  | cs => digitsVal cs

/-- `value[0]` (line 266): the code of the first character. -/
def charCodeOf (t : String) : Int := ((t.toList.headD ' ').toNat : Int)

/-- The value-coercion chain of `handleSerialInput` (lines 262-273):
`int valueInt = atoi(value.c_str());
 if(String(valueInt) != value) {
   if(value.length() == 1) valueInt = value[0];
   else if(value == "true") valueInt = 1;
   else if(value == "false") valueInt = 0;
   else continue; }`
`none` is the `continue` (silently skipped) case. -/
def coerce (value : String) : Option Int :=
  let valueInt := atoiC value
  if toString valueInt = value then some valueInt
  else if value.length = 1 then some (charCodeOf value)
  else if value = "true" then some 1
  else if value = "false" then some 0
  else none

/-- Arduino `String::substring(left, right)`: swaps the bounds when
`left > right`, clamps to the length, and returns the characters in
`[left, right)`. -/
def substringC (cs : List Char) (left right : Nat) : String :=
  if left > right then String.mk ((cs.take left).drop right)
  else String.mk ((cs.take right).drop left)

/-- `String getValue(String data, int index)` (lines 427-444), the
whitespace tokenizer: a statement-by-statement port of the index loop.
The loop over `i = 0 .. data.length()-1` with early exit once
`found > index` is realized as a fold whose step is a no-op after the
exit condition holds (`found` never decreases). -/
def getValue (data : String) (index : Int) : String :=
  let cs := data.toList
  let n := cs.length
  let lengthM1 : Int := (n : Int) - 1
  let step : (Int × Int × Int) → Nat → (Int × Int × Int) := fun st i =>
    if st.1 ≤ index ∧ (cs.getD i ' ' = ' ' ∨ (i : Int) = lengthM1) then
      (st.1 + 1, st.2.2 + 1, if (i : Int) = lengthM1 then (i : Int) + 1 else (i : Int))
    else st
  let res := (List.range n).foldl step (0, 0, -1)
  if res.1 > index then substringC cs res.2.1.toNat res.2.2.toNat else ""

example : getValue "lh 100" 0 = "lh" := by decide
example : getValue "lh 100" 1 = "100" := by decide
example : getValue "name my pad" 1 = "my" := by decide
example : getValue "ping" 0 = "ping" := by decide
example : getValue "ping" 1 = "" := by decide
example : coerce "100" = some 100 := by decide
example : coerce "true" = some 1 := by decide
example : coerce "x" = some 120 := by decide
example : coerce "007" = none := by decide
example : coerce "" = none := by decide

/-- An observable side effect of command handling: a `Serial.println` line
or an `EEPROM.put(0, c)` write of a whole configuration record. -/
inductive Effect where
  | println (s : String)
  | eepromPut (c : Configuration)
deriving DecidableEq, Repr

/-- Arduino `String(bool)` as used in the GET report lines. -/
def boolStr (b : Bool) : String := if b then "1" else "0"

/-- Arduino `String(char)` as used for the key-code GET report lines. -/
def charStr (code : Int) : String := String.mk [Char.ofNat code.toNat]

/-- The shared reset/safe-mode override (lines 99-106 and 190-197): start
from `defaultConfig` and carry over the four calibration endpoints and the
two HID-enable flags of the current record. -/
def resetPreserving (c : Configuration) : Configuration :=
  { defaultConfig with
      key1RestPosition := c.key1RestPosition
      key2RestPosition := c.key2RestPosition
      key1DownPosition := c.key1DownPosition
      key2DownPosition := c.key2DownPosition
      key1HIDEnabled := c.key1HIDEnabled
      key2HIDEnabled := c.key2HIDEnabled }

/-- The `value == ""` report block (lines 212-245).  `TOLERANCE` and
`400 - TOLERANCE` are compile-time constants, folded to `8`/`392` in the
message strings below as the C compiler folds them. -/
def getReport (c : Configuration) (key : String) : List Effect :=
  (if key = "rt" ∨ key = "get" then [Effect.println ("GET rt=" ++ boolStr c.rapidTrigger)] else []) ++
  (if key = "rts" ∨ key = "get" then [Effect.println ("GET rts=" ++ toString c.rapidTriggerSensitivity)] else []) ++
  (if key = "lh" ∨ key = "get" then [Effect.println ("GET lh=" ++ toString c.lowerHysteresis)] else []) ++
  (if key = "uh" ∨ key = "get" then [Effect.println ("GET uh=" ++ toString c.upperHysteresis)] else []) ++
  (if key = "key1" ∨ key = "get" then [Effect.println ("GET key1=" ++ charStr c.key1)] else []) ++
  (if key = "key2" ∨ key = "get" then [Effect.println ("GET key2=" ++ charStr c.key2)] else []) ++
  (if key = "k1rp" ∨ key = "get" then [Effect.println ("GET k1rp=" ++ toString c.key1RestPosition)] else []) ++
  (if key = "k2rp" ∨ key = "get" then [Effect.println ("GET k2rp=" ++ toString c.key2RestPosition)] else []) ++
  (if key = "k1dp" ∨ key = "get" then [Effect.println ("GET k1dp=" ++ toString c.key1DownPosition)] else []) ++
  (if key = "k2dp" ∨ key = "get" then [Effect.println ("GET k2dp=" ++ toString c.key2DownPosition)] else []) ++
  (if key = "hid1" ∨ key = "get" then [Effect.println ("GET hid1=" ++ boolStr c.key1HIDEnabled)] else []) ++
  (if key = "hid2" ∨ key = "get" then [Effect.println ("GET hid2=" ++ boolStr c.key2HIDEnabled)] else []) ++
  (if key = "name" ∨ key = "get" then [Effect.println ("GET name=" ++ c.name)] else []) ++
  (if key = "tol" ∨ key = "get" then [Effect.println "GET tol=8"] else []) ++
  (if key = "get" then [Effect.println "GET END"] else [])

/-- The set-dispatch chain of `handleSerialInput` after coercion
(lines 275-388), acting on an already coerced `valueInt`; the final
`else` of the chain (an unrecognized field key) is a silent no-op.
Messages mirror the source with the compile-time constants `TOLERANCE = 8`
and `400 - TOLERANCE = 392` folded. -/
def applySet (c : Configuration) (key value : String) (valueInt : Int) :
    Configuration × List Effect :=
  if key = "rt" then
    if valueInt ≠ 0 ∧ valueInt ≠ 1 then
      (c, [Effect.println "Allowed values for 'rapidTrigger' are true/1 or false/0"])
    else
      ({ c with rapidTrigger := valueInt = 1 },
        [Effect.println ("'rapidTrigger' was set to '" ++ (if valueInt = 1 then "true" else "false") ++ "'")])
  else if key = "rts" then
    if valueInt < 8 ∨ valueInt > 400 then
      (c, [Effect.println "Allowed range for 'rapidTriggerSensitivity' is 8-400"])
    else
      ({ c with rapidTriggerSensitivity := valueInt },
        [Effect.println ("'rapidTriggerSensitivity' was set to '" ++ value ++ "'")])
  else if key = "lh" then
    if valueInt < 0 ∨ valueInt > 392 then
      (c, [Effect.println "Allowed range for 'lowerHysteresis' is 0-392"])
    else if valueInt > c.upperHysteresis - 8 then
      (c, [Effect.println "The value 'lowerHysteresis' must be at least 8 less than the value 'upperHysteresis'"])
    else
      ({ c with lowerHysteresis := valueInt },
        [Effect.println ("'lowerHysteresis' was set to '" ++ value ++ "'")])
  else if key = "uh" then
    if valueInt < 0 ∨ valueInt > 392 then
      (c, [Effect.println "Allowed range for 'upperHysteresis' is 0-392"])
    else if valueInt < c.lowerHysteresis + 8 then
      (c, [Effect.println "The value 'upperHysteresis' must be at least 8 more than the value 'lowerHysteresis'"])
    else
      ({ c with upperHysteresis := valueInt },
        [Effect.println ("'upperHysteresis' was set to '" ++ value ++ "'")])
  else if key = "key1" ∨ key = "key2" then
    if valueInt < 97 ∨ valueInt > 122 then
      (c, [Effect.println ("The value '" ++ key ++ "' must be between 97 and 122 (a-z)")])
    else
      ((if key = "key1" then { c with key1 := valueInt } else { c with key2 := valueInt }),
        [Effect.println ("'" ++ key ++ "' was set to '" ++ value ++ "'")])
  else if key = "k1rp" ∨ key = "k2rp" then
    if valueInt < 0 ∨ valueInt > 1023 then
      (c, [Effect.println ("Allowed range for '" ++ key ++ "' is 0-1024")])
    else
      ((if key = "k1rp" then { c with key1RestPosition := valueInt } else { c with key2RestPosition := valueInt }),
        [Effect.println ("'" ++ key ++ "' was set to '" ++ value ++ "'")])
  else if key = "k1dp" ∨ key = "k2dp" then
    if valueInt < 0 ∨ valueInt > 1023 then
      (c, [Effect.println ("Allowed range for '" ++ key ++ "' is 0-1024")])
    else
      ((if key = "k1dp" then { c with key1DownPosition := valueInt } else { c with key2DownPosition := valueInt }),
        [Effect.println ("'" ++ key ++ "' was set to '" ++ value ++ "'")])
  else if key = "hid1" ∨ key = "hid2" then
    if valueInt ≠ 0 ∧ valueInt ≠ 1 then
      (c, [Effect.println ("Allowed values for '" ++ key ++ "' are true/1 or false/0")])
    else
      ((if key = "hid1" then { c with key1HIDEnabled := valueInt = 1 } else { c with key2HIDEnabled := valueInt = 1 }),
        [Effect.println ("'" ++ key ++ "' was set to '" ++ (if valueInt = 1 then "true" else "false") ++ "'")])
  else (c, [])

/-- One iteration of the `while(Serial.available())` body of
`handleSerialInput` (lines 183-388), on the two tokens already split off
the input line. -/
def procCmd (c : Configuration) (key value : String) : Configuration × List Effect :=
  if key = "reset" then
    (resetPreserving c, [Effect.println "Config resetted."])
  else if key = "save" then
    (c, [Effect.eepromPut c, Effect.println "Config written to EEPROM."])
  else if key = "ping" then
    (c, [Effect.println ("PONG " ++ FIRMWARE_VERSION ++ " | " ++ c.name)])
  else if value = "" then
    (c, getReport c key)
  else if key = "name" then
    let t := trimC value
    if t.length < 1 ∨ t.length > 128 then
      (c, [Effect.println "The length of 'name' must be between 1 and 128."])
    else
      ({ c with name := t }, [Effect.println ("'name' was set to '" ++ t ++ "'")])
  else
    match coerce value with
    | none => (c, [])
    | some valueInt => applySet c key value valueInt

/-- Processing of one full input line: split into the `key` and `value`
tokens (lines 184-185) and dispatch. -/
def procLine (c : Configuration) (input : String) : Configuration × List Effect :=
  procCmd c (getValue input 0) (getValue input 1)

/-- The whole `handleSerialInput` drain loop over a list of pending
lines, accumulating effects in order. -/
def procLines : Configuration → List String → Configuration × List Effect
  | c, [] => (c, [])
  | c, line :: rest =>
    let r := procLine c line
    let r2 := procLines r.1 rest
    (r2.1, r.2 ++ r2.2)

/-- The boot-time safe-mode condition (line 97): both raw boot samples
normalize to at most `SAFEMODE_BOUNDARY`, with the calibration endpoints
passed in the `(restPosition, downPosition)` orientation. -/
def safeModeTriggered (c : Configuration) (r1 r2 : Int) : Prop :=
  mapToRange400 r1 c.key1RestPosition c.key1DownPosition ≤ SAFEMODE_BOUNDARY ∧
  mapToRange400 r2 c.key2RestPosition c.key2DownPosition ≤ SAFEMODE_BOUNDARY

instance (c : Configuration) (r1 r2 : Int) : Decidable (safeModeTriggered c r1 r2) := by
  unfold safeModeTriggered; infer_instance

/-- `setup()` (lines 83-112): load the stored record, fall back to (and
persist) `defaultConfig` on a UID mismatch, then apply the in-memory
safe-mode override when both boot samples trigger it. -/
def setupStep (stored : Configuration) (r1 r2 : Int) : Configuration × List Effect :=
  let p : Configuration × List Effect :=
    if stored.uid ≠ CONFIG_UID then (defaultConfig, [Effect.eepromPut defaultConfig])
    else (stored, [])
  if safeModeTriggered p.1 r1 r2 then (resetPreserving p.1, p.2) else (p.1, p.2)

/-- One full `loop()` iteration (lines 114-177): drain the pending serial
lines, normalize the two raw samples against the updated configuration
(in the `(downPosition, restPosition)` orientation of lines 125-126), and
run the actuation pass for both keys. -/
def loopStep (st : SysState) (lines : List String) (raw1 raw2 : Int) :
    SysState × List Effect × List KeyEvent :=
  let pr := procLines st.config lines
  let v1 := mapToRange400 raw1 pr.1.key1DownPosition pr.1.key1RestPosition
  let v2 := mapToRange400 raw2 pr.1.key2DownPosition pr.1.key2RestPosition
  let a := actuate pr.1 st.key1 st.key2 v1 v2
  (⟨pr.1, a.1.1, a.1.2⟩, pr.2, a.2)

/-- The field keys accepted by the set-dispatch chain. -/
def setKeys : List String :=
  ["rt", "rts", "lh", "uh", "key1", "key2", "k1rp", "k2rp", "k1dp", "k2dp", "hid1", "hid2"]

/-- The per-field validation predicate of §4.3, written from the spec's
rules: set-values accepted by the dispatch chain. -/
def validSet (c : Configuration) (key : String) (n : Int) : Bool :=
  if key = "rt" ∨ key = "hid1" ∨ key = "hid2" then decide (n = 0 ∨ n = 1)
  else if key = "rts" then decide (8 ≤ n ∧ n ≤ 400)
  else if key = "lh" then decide (0 ≤ n ∧ n ≤ 392 ∧ n ≤ c.upperHysteresis - 8)
  else if key = "uh" then decide (0 ≤ n ∧ n ≤ 392 ∧ c.lowerHysteresis + 8 ≤ n)
  else if key = "key1" ∨ key = "key2" then decide (97 ≤ n ∧ n ≤ 122)
  else decide (0 ≤ n ∧ n ≤ 1023)

/-- The rejection message reported for an invalid set-value of each
field. -/
def rejectMsg (key : String) (n : Int) : String :=
  if key = "rt" then "Allowed values for 'rapidTrigger' are true/1 or false/0"
  else if key = "rts" then "Allowed range for 'rapidTriggerSensitivity' is 8-400"
  else if key = "lh" then
    (if n < 0 ∨ n > 392 then "Allowed range for 'lowerHysteresis' is 0-392"
     else "The value 'lowerHysteresis' must be at least 8 less than the value 'upperHysteresis'")
  else if key = "uh" then
    (if n < 0 ∨ n > 392 then "Allowed range for 'upperHysteresis' is 0-392"
     else "The value 'upperHysteresis' must be at least 8 more than the value 'lowerHysteresis'")
  else if key = "key1" ∨ key = "key2" then "The value '" ++ key ++ "' must be between 97 and 122 (a-z)"
  else if key = "k1rp" ∨ key = "k2rp" ∨ key = "k1dp" ∨ key = "k2dp" then
    "Allowed range for '" ++ key ++ "' is 0-1024"
  else "Allowed values for '" ++ key ++ "' are true/1 or false/0"

example : (procLine defaultConfig "lh 100").1.lowerHysteresis = 100 := by decide
example : (procLine defaultConfig "lh 100").2 =
    [Effect.println "'lowerHysteresis' was set to '100'"] := by decide
example : (procLine defaultConfig "rts 7") =
    (defaultConfig, [Effect.println "Allowed range for 'rapidTriggerSensitivity' is 8-400"]) := by decide
example : (procLine defaultConfig "name my pad").1.name = "my" := by decide
example : (procLine defaultConfig "ping").2 =
    [Effect.println "PONG 20221219.2 | minipad"] := by decide
example : (procLine defaultConfig "reset").1 = defaultConfig := by decide
example : (procLine defaultConfig "zzz 5") = (defaultConfig, []) := by decide
example : (procLine defaultConfig "lh x5") = (defaultConfig, []) := by decide

/-! ### Helper lemmas about rounding and clamping -/

lemma roundC_intCast (n : ℤ) : roundC (n : ℚ) = n := by
  unfold roundC
  split_ifs with h
  · rw [add_comm, Int.floor_add_int]
    norm_num
  · rw [sub_eq_add_neg, add_comm, Int.ceil_add_int]
    norm_num

lemma roundC_mono (p q : ℚ) (h : p ≤ q) : roundC p ≤ roundC q := by
  unfold roundC
  split_ifs with h1 h2 h2
  · exact Int.floor_mono (by linarith)
  · exact absurd (le_trans h1 h) h2
  · have h3 : ⌈p - 1/2⌉ ≤ (0 : ℤ) := by
      rw [show ((0:ℤ) : ℤ) = ((0:ℤ)) from rfl]
      exact Int.ceil_le.mpr (by push_neg at h1; push_cast; linarith)
    have h4 : (0 : ℤ) ≤ ⌊q + 1/2⌋ := Int.floor_nonneg.mpr (by linarith)
    omega
  · exact Int.ceil_mono (by linarith)

/-- C4.  For every raw sample and calibration endpoints `low ≠ high`,
`mapToRange400` equals the spec's `round((raw - low)/(high - low) * 400)`
clamped into `[0, 400]`; it sends `low` to `0` and `high` to `400`, its
result always lies in `[0, 400]`, and it is monotone in `raw` (order
preserving when `low < high`, order reversing when `high < low`). -/
theorem mapToRange400_spec (raw r r' low high : Int) (h : low ≠ high) :
    mapToRange400 raw low high = specNormalize raw low high ∧
    mapToRange400 low low high = 0 ∧
    mapToRange400 high low high = 400 ∧
    0 ≤ mapToRange400 raw low high ∧
    mapToRange400 raw low high ≤ 400 ∧
    (low < high → r ≤ r' → mapToRange400 r low high ≤ mapToRange400 r' low high) ∧
    (high < low → r ≤ r' → mapToRange400 r' low high ≤ mapToRange400 r low high) := by
  refine ⟨?_, ?_, ?_, ?_, ?_, ?_, ?_⟩
  · simp only [mapToRange400, specNormalize, mul_one]
  · have h0 : ((low : ℚ) - (low : ℚ)) * 1 / ((high : ℚ) - (low : ℚ)) * 400 = ((0 : ℤ) : ℚ) := by
      rw [sub_self]; norm_num
    simp only [mapToRange400, h0, roundC_intCast]
    decide
  · have hne : ((high : ℚ) - (low : ℚ)) ≠ 0 := by
      rw [sub_ne_zero]
      exact_mod_cast Ne.symm h
    have h1 : ((high : ℚ) - (low : ℚ)) * 1 / ((high : ℚ) - (low : ℚ)) * 400 = ((400 : ℤ) : ℚ) := by
      rw [mul_one, div_self hne]; norm_num
    simp only [mapToRange400, h1, roundC_intCast]
    decide
  · simp only [mapToRange400]; omega
  · simp only [mapToRange400]; omega
  · intro hlh hrr
    have hd : (0 : ℚ) < (high : ℚ) - (low : ℚ) := by
      rw [sub_pos]; exact_mod_cast hlh
    have hnum : ((r : ℚ) - (low : ℚ)) ≤ ((r' : ℚ) - (low : ℚ)) :=
      sub_le_sub_right (by exact_mod_cast hrr) _
    have hq : ((r : ℚ) - (low : ℚ)) * 1 / ((high : ℚ) - (low : ℚ)) * 400 ≤
        ((r' : ℚ) - (low : ℚ)) * 1 / ((high : ℚ) - (low : ℚ)) * 400 := by
      apply mul_le_mul_of_nonneg_right _ (by norm_num : (0:ℚ) ≤ 400)
      rw [mul_one, mul_one, div_le_div_iff_of_pos_right hd]
      exact hnum
    have hr := roundC_mono _ _ hq
    simp only [mapToRange400]
    omega
  · intro hlh hrr
    have hd : (high : ℚ) - (low : ℚ) < 0 := by
      rw [sub_neg]; exact_mod_cast hlh
    have hnum : ((r : ℚ) - (low : ℚ)) ≤ ((r' : ℚ) - (low : ℚ)) :=
      sub_le_sub_right (by exact_mod_cast hrr) _
    have hq : ((r' : ℚ) - (low : ℚ)) * 1 / ((high : ℚ) - (low : ℚ)) * 400 ≤
        ((r : ℚ) - (low : ℚ)) * 1 / ((high : ℚ) - (low : ℚ)) * 400 := by
      apply mul_le_mul_of_nonneg_right _ (by norm_num : (0:ℚ) ≤ 400)
      rw [mul_one, mul_one, div_eq_mul_inv, div_eq_mul_inv]
      exact mul_le_mul_of_nonpos_right hnum (inv_nonpos.mpr hd.le)
    have hr := roundC_mono _ _ hq
    simp only [mapToRange400]
    omega

/-- Witness for C4 at `raw = 200`, `r = 100`, `r' = 300`, `low = 150`,
`high = 450`. -/
theorem mapToRange400_spec_witness :
    (150 : Int) ≠ 450 ∧
    (mapToRange400 200 150 450 = specNormalize 200 150 450 ∧
     mapToRange400 150 150 450 = 0 ∧
     mapToRange400 450 150 450 = 400 ∧
     0 ≤ mapToRange400 200 150 450 ∧
     mapToRange400 200 150 450 ≤ 400 ∧
     ((150 : Int) < 450 → (100 : Int) ≤ 300 → mapToRange400 100 150 450 ≤ mapToRange400 300 150 450) ∧
     ((450 : Int) < 150 → (100 : Int) ≤ 300 → mapToRange400 300 150 450 ≤ mapToRange400 100 150 450)) :=
  ⟨by decide, mapToRange400_spec 200 100 300 150 450 (by decide)⟩

/-! ### Helper lemmas about the actuation step -/

lemma rtUpdate_min_max (p : Bool) (last v : Int) :
    rtUpdate p last v = if p = true then min last v else max last v := by
  unfold rtUpdate
  cases p <;> split_ifs <;> simp_all <;> omega

lemma keyStep_state_hid_code_indep (c : Configuration) (code code' : Int)
    (hid hid' : Bool) (s : KeyState) (v : Int) :
    (keyStep c code hid s v).1 = (keyStep c code' hid' s v).1 := by
  unfold keyStep
  split_ifs <;> rfl

lemma keyStep_config_hid_indep (c : Configuration) (b1 b2 : Bool) (code : Int)
    (hid : Bool) (s : KeyState) (v : Int) :
    keyStep { c with key1HIDEnabled := b1, key2HIDEnabled := b2 } code hid s v =
      keyStep c code hid s v := by
  unfold keyStep
  rfl

lemma keyStep_last_cases (c : Configuration) (code : Int) (hid : Bool)
    (s : KeyState) (v : Int) :
    (keyStep c code hid s v).1.lastRapidTriggerValue = s.lastRapidTriggerValue ∨
    (keyStep c code hid s v).1.lastRapidTriggerValue = v := by
  unfold keyStep rtUpdate
  split_ifs <;> simp

/-- C1.  With `rapidTriggerEnabled = false` the per-key step only presses
when `v ≤ lowerHysteresis` and only releases when `v ≥ upperHysteresis`;
in this mode the rapid-trigger model never fires (the extremum is
untouched and the result does not depend on the sensitivity), and with
`rapidTriggerEnabled = true` the hysteresis model never fires (the result
does not depend on either hysteresis threshold). -/
theorem hysteresis_model_guards (c : Configuration) (code : Int) (hid : Bool)
    (s : KeyState) (v : Int) (sens lh uh : Int) :
    (c.rapidTrigger = false →
      (((keyStep c code hid s v).1.pressed = true ∧ s.pressed = false) →
        v ≤ c.lowerHysteresis) ∧
      (((keyStep c code hid s v).1.pressed = false ∧ s.pressed = true) →
        c.upperHysteresis ≤ v) ∧
      (keyStep c code hid s v).1.lastRapidTriggerValue = s.lastRapidTriggerValue ∧
      keyStep { c with rapidTriggerSensitivity := sens } code hid s v =
        keyStep c code hid s v) ∧
    (c.rapidTrigger = true →
      keyStep { c with lowerHysteresis := lh, upperHysteresis := uh } code hid s v =
        keyStep c code hid s v) := by
  constructor
  · intro h
    refine ⟨?_, ?_, ?_, ?_⟩
    · simp only [keyStep, h]
      split_ifs <;> simp_all
    · simp only [keyStep, h]
      split_ifs <;> simp_all
    · simp only [keyStep, h]
      split_ifs <;> simp_all
    · simp [keyStep, h]
  · intro h
    simp [keyStep, h]

/-- Witness for C1 at a hysteresis-mode configuration and a value below
the lower hysteresis. -/
theorem hysteresis_model_guards_witness :
    (({ defaultConfig with rapidTrigger := false } : Configuration).rapidTrigger = false →
      (((keyStep { defaultConfig with rapidTrigger := false } 120 true ⟨false, 0⟩ 100).1.pressed = true ∧
          (⟨false, 0⟩ : KeyState).pressed = false) →
        (100 : Int) ≤ ({ defaultConfig with rapidTrigger := false } : Configuration).lowerHysteresis) ∧
      (((keyStep { defaultConfig with rapidTrigger := false } 120 true ⟨false, 0⟩ 100).1.pressed = false ∧
          (⟨false, 0⟩ : KeyState).pressed = true) →
        ({ defaultConfig with rapidTrigger := false } : Configuration).upperHysteresis ≤ (100 : Int)) ∧
      (keyStep { defaultConfig with rapidTrigger := false } 120 true ⟨false, 0⟩ 100).1.lastRapidTriggerValue =
        (⟨false, 0⟩ : KeyState).lastRapidTriggerValue ∧
      keyStep { { defaultConfig with rapidTrigger := false } with rapidTriggerSensitivity := 99 } 120 true ⟨false, 0⟩ 100 =
        keyStep { defaultConfig with rapidTrigger := false } 120 true ⟨false, 0⟩ 100) ∧
    (({ defaultConfig with rapidTrigger := false } : Configuration).rapidTrigger = true →
      keyStep { { defaultConfig with rapidTrigger := false } with lowerHysteresis := 1, upperHysteresis := 399 } 120 true ⟨false, 0⟩ 100 =
        keyStep { defaultConfig with rapidTrigger := false } 120 true ⟨false, 0⟩ 100) :=
  hysteresis_model_guards { defaultConfig with rapidTrigger := false } 120 true ⟨false, 0⟩ 100 99 1 399

/-- C2.  The rapid-trigger extremum starts at `0`; while rapid trigger is
active it is updated every cycle to `min`/`max` of its old value and the
current normalized value according to the post-transition pressed state
(hence non-increasing while pressed, non-decreasing while released), and a
transition fires only when the value diverges from the extremum by at
least the sensitivity.  While rapid trigger is inactive the extremum is
left untouched, and across a whole `loop()` iteration (including command
processing, hence any mode switch) it is never reset: it either keeps its
value or becomes the cycle's normalized value. -/
theorem rapid_trigger_extremum_invariants (c : Configuration) (code : Int)
    (hid : Bool) (s : KeyState) (v : Int) (h : c.rapidTrigger = true)
    (c' : Configuration) (code' : Int) (hid' : Bool) (s' : KeyState) (v' : Int)
    (c0 : Configuration) (st : SysState) (lines : List String) (raw1 raw2 : Int) :
    (initState c0).key1.lastRapidTriggerValue = 0 ∧
    (initState c0).key2.lastRapidTriggerValue = 0 ∧
    (keyStep c code hid s v).1.lastRapidTriggerValue =
      (if (keyStep c code hid s v).1.pressed = true
       then min s.lastRapidTriggerValue v else max s.lastRapidTriggerValue v) ∧
    ((keyStep c code hid s v).1.pressed = true →
      (keyStep c code hid s v).1.lastRapidTriggerValue ≤ s.lastRapidTriggerValue) ∧
    ((keyStep c code hid s v).1.pressed = false →
      s.lastRapidTriggerValue ≤ (keyStep c code hid s v).1.lastRapidTriggerValue) ∧
    ((keyStep c code hid s v).1.pressed = true → s.pressed = false →
      c.rapidTriggerSensitivity ≤ s.lastRapidTriggerValue - v) ∧
    ((keyStep c code hid s v).1.pressed = false → s.pressed = true →
      c.rapidTriggerSensitivity ≤ v - s.lastRapidTriggerValue) ∧
    (c'.rapidTrigger = false →
      (keyStep c' code' hid' s' v').1.lastRapidTriggerValue = s'.lastRapidTriggerValue) ∧
    ((loopStep st lines raw1 raw2).1.key1.lastRapidTriggerValue =
        st.key1.lastRapidTriggerValue ∨
      (loopStep st lines raw1 raw2).1.key1.lastRapidTriggerValue =
        mapToRange400 raw1 (procLines st.config lines).1.key1DownPosition
          (procLines st.config lines).1.key1RestPosition) ∧
    ((loopStep st lines raw1 raw2).1.key2.lastRapidTriggerValue =
        st.key2.lastRapidTriggerValue ∨
      (loopStep st lines raw1 raw2).1.key2.lastRapidTriggerValue =
        mapToRange400 raw2 (procLines st.config lines).1.key2DownPosition
          (procLines st.config lines).1.key2RestPosition) := by
  refine ⟨rfl, rfl, ?_, ?_, ?_, ?_, ?_, ?_, ?_, ?_⟩
  · simp only [keyStep, h]
    split_ifs <;> simp_all [rtUpdate_min_max]
  · intro hp
    simp only [keyStep, h] at hp ⊢
    split_ifs at hp ⊢ <;> simp_all [rtUpdate_min_max]
  · intro hp
    simp only [keyStep, h] at hp ⊢
    split_ifs at hp ⊢ <;> simp_all [rtUpdate_min_max]
  · intro hp hsp
    simp only [keyStep, h] at hp
    split_ifs at hp with h1 h2 <;> simp_all <;> omega
  · intro hp hsp
    simp only [keyStep, h] at hp
    split_ifs at hp with h1 h2 <;> simp_all <;> omega
  · intro h'
    simp only [keyStep, h']
    split_ifs <;> simp_all
  · exact keyStep_last_cases _ _ _ _ _
  · exact keyStep_last_cases _ _ _ _ _

/-- Witness for C2: rapid-trigger mode, released key with extremum `50`
seeing value `30` (sensitivity `10`), plus an idle full cycle from the
initial state. -/
theorem rapid_trigger_extremum_invariants_witness :
    defaultConfig.rapidTrigger = true ∧
    (keyStep defaultConfig 120 true ⟨false, 50⟩ 30).1.lastRapidTriggerValue =
      (if (keyStep defaultConfig 120 true ⟨false, 50⟩ 30).1.pressed = true
       then min 50 30 else max 50 30) ∧
    (keyStep defaultConfig 120 true ⟨false, 50⟩ 30).1.lastRapidTriggerValue ≤ 50 ∧
    defaultConfig.rapidTriggerSensitivity ≤ 50 - 30 ∧
    ((loopStep (initState defaultConfig) [] 300 300).1.key1.lastRapidTriggerValue = 0 ∨
      (loopStep (initState defaultConfig) [] 300 300).1.key1.lastRapidTriggerValue =
        mapToRange400 300 (procLines defaultConfig []).1.key1DownPosition
          (procLines defaultConfig []).1.key1RestPosition) := by
  have h := rapid_trigger_extremum_invariants defaultConfig 120 true ⟨false, 50⟩ 30
    (by decide) defaultConfig 120 true ⟨false, 50⟩ 30 defaultConfig
    (initState defaultConfig) [] 300 300
  exact ⟨by decide, h.2.2.1, h.2.2.2.1 (by decide), h.2.2.2.2.2.1 (by decide) (by decide),
    h.2.2.2.2.2.2.2.2.1⟩

/-- C10.  The pressed/extremum trajectories are independent of the two
HID-enable flags: runs on the same normalized sample sequence whose
configurations differ only in `key1HIDEnabled`/`key2HIDEnabled` produce
identical key states, and the flags gate only whether the per-transition
`Keyboard.press`/`Keyboard.release` events are emitted. -/
theorem hid_flags_noninterference (c : Configuration) (b1 b2 : Bool)
    (ks : KeyState × KeyState) (vs : List (Int × Int)) (code : Int)
    (hid hid' : Bool) (s : KeyState) (v : Int) :
    actuateRun { c with key1HIDEnabled := b1, key2HIDEnabled := b2 } ks vs =
      actuateRun c ks vs ∧
    (keyStep c code hid s v).1 = (keyStep c code hid' s v).1 ∧
    (keyStep c code false s v).2 = [] ∧
    (keyStep c code hid s v).2 = (if hid then (keyStep c code true s v).2 else []) := by
  have hstep : ∀ (p : KeyState × KeyState) (w : Int × Int),
      (actuate { c with key1HIDEnabled := b1, key2HIDEnabled := b2 } p.1 p.2 w.1 w.2).1 =
        (actuate c p.1 p.2 w.1 w.2).1 := by
    intro p w
    simp only [actuate, keyStep_config_hid_indep]
    exact Prod.ext
      (keyStep_state_hid_code_indep c c.key1 c.key1 b1 c.key1HIDEnabled p.1 w.1)
      (keyStep_state_hid_code_indep c c.key2 c.key2 b2 c.key2HIDEnabled p.2 w.2)
  refine ⟨?_, keyStep_state_hid_code_indep c code code hid hid' s v, ?_, ?_⟩
  · induction vs generalizing ks with
    | nil => rfl
    | cons w ws ih =>
        simp only [actuateRun, List.foldl_cons]
        rw [hstep ks w]
        exact ih _
  · unfold keyStep
    split_ifs <;> simp_all
  · cases hid
    · unfold keyStep
      split_ifs <;> simp_all
    · simp

/-- C5.  The `reset` command replaces the in-memory configuration by the
built-in default while keeping exactly the four calibration endpoints and
the two HID-enable flags of the current record; its only effect is the
confirmation line (in particular no EEPROM write). -/
theorem reset_frame (c : Configuration) :
    procLine c "reset" = (resetPreserving c, [Effect.println "Config resetted."]) ∧
    (resetPreserving c).uid = defaultConfig.uid ∧
    (resetPreserving c).name = defaultConfig.name ∧
    (resetPreserving c).rapidTrigger = defaultConfig.rapidTrigger ∧
    (resetPreserving c).rapidTriggerSensitivity = defaultConfig.rapidTriggerSensitivity ∧
    (resetPreserving c).lowerHysteresis = defaultConfig.lowerHysteresis ∧
    (resetPreserving c).upperHysteresis = defaultConfig.upperHysteresis ∧
    (resetPreserving c).key1 = defaultConfig.key1 ∧
    (resetPreserving c).key2 = defaultConfig.key2 ∧
    (resetPreserving c).key1RestPosition = c.key1RestPosition ∧
    (resetPreserving c).key2RestPosition = c.key2RestPosition ∧
    (resetPreserving c).key1DownPosition = c.key1DownPosition ∧
    (resetPreserving c).key2DownPosition = c.key2DownPosition ∧
    (resetPreserving c).key1HIDEnabled = c.key1HIDEnabled ∧
    (resetPreserving c).key2HIDEnabled = c.key2HIDEnabled := by
  have h0 : getValue "reset" 0 = "reset" := by decide
  have h1 : getValue "reset" 1 = "" := by decide
  refine ⟨?_, rfl, rfl, rfl, rfl, rfl, rfl, rfl, rfl, rfl, rfl, rfl, rfl, rfl, rfl⟩
  unfold procLine
  rw [h0, h1]
  simp [procCmd]

/-- C9.  When the stored record's UID matches and the boot-time safe-mode
check triggers, `setup()` overwrites every configuration field with its
default except the four calibration endpoints and the two HID-enable
flags, which keep the loaded values, and performs no EEPROM write. -/
theorem safe_mode_frame (stored : Configuration) (r1 r2 : Int)
    (h1 : stored.uid = CONFIG_UID) (h2 : safeModeTriggered stored r1 r2) :
    setupStep stored r1 r2 = (resetPreserving stored, []) ∧
    (resetPreserving stored).uid = defaultConfig.uid ∧
    (resetPreserving stored).name = defaultConfig.name ∧
    (resetPreserving stored).rapidTrigger = defaultConfig.rapidTrigger ∧
    (resetPreserving stored).rapidTriggerSensitivity = defaultConfig.rapidTriggerSensitivity ∧
    (resetPreserving stored).lowerHysteresis = defaultConfig.lowerHysteresis ∧
    (resetPreserving stored).upperHysteresis = defaultConfig.upperHysteresis ∧
    (resetPreserving stored).key1 = defaultConfig.key1 ∧
    (resetPreserving stored).key2 = defaultConfig.key2 ∧
    (resetPreserving stored).key1RestPosition = stored.key1RestPosition ∧
    (resetPreserving stored).key2RestPosition = stored.key2RestPosition ∧
    (resetPreserving stored).key1DownPosition = stored.key1DownPosition ∧
    (resetPreserving stored).key2DownPosition = stored.key2DownPosition ∧
    (resetPreserving stored).key1HIDEnabled = stored.key1HIDEnabled ∧
    (resetPreserving stored).key2HIDEnabled = stored.key2HIDEnabled := by
  refine ⟨?_, rfl, rfl, rfl, rfl, rfl, rfl, rfl, rfl, rfl, rfl, rfl, rfl, rfl, rfl⟩
  simp [setupStep, h1, h2]

/-- A stored record with UID 2247 whose key-1 calibration and HID flag
differ from the default, used as the concrete boot state below. -/
def safeModeStored : Configuration :=
  { defaultConfig with
      key1RestPosition := 500
      rapidTriggerSensitivity := 50
      key1HIDEnabled := false }

/-- Witness for C9: boot from `safeModeStored` with both keys at their
rest positions (which is what triggers the safe-mode check). -/
theorem safe_mode_frame_witness :
    safeModeStored.uid = CONFIG_UID ∧
    safeModeTriggered safeModeStored 500 450 ∧
    setupStep safeModeStored 500 450 = (resetPreserving safeModeStored, []) :=
  ⟨by decide,
   by norm_num [safeModeTriggered, mapToRange400, roundC, safeModeStored, defaultConfig,
     SAFEMODE_BOUNDARY],
   (safe_mode_frame safeModeStored 500 450 (by decide)
      (by norm_num [safeModeTriggered, mapToRange400, roundC, safeModeStored, defaultConfig,
        SAFEMODE_BOUNDARY])).1⟩

/-- C8 counterexample.  `name my pad` stores only the second
whitespace-separated token `"my"`, not the trimmed multi-word text
`"my pad"`, and a following `ping` echoes `"my"`. -/
theorem ping_multiword_name_counterexample :
    (procLine defaultConfig "name my pad").1.name = "my" ∧
    (procLine defaultConfig "name my pad").1.name ≠ "my pad" ∧
    (procLines defaultConfig ["name my pad", "ping"]).2 =
      [Effect.println "'name' was set to 'my'",
       Effect.println "PONG 20221219.2 | my"] := by
  decide

/-- C8 (amended).  `ping` always replies with the fixed identification
string containing the firmware version and the configured name verbatim,
in every state; a `name` set command stores the trimmed *second
whitespace-separated token* of the line (so a multi-word argument keeps
only its first word), and a later `ping` echoes that stored token. -/
theorem ping_and_name_set (c : Configuration) (value : String) :
    procCmd c "ping" value =
      (c, [Effect.println ("PONG " ++ FIRMWARE_VERSION ++ " | " ++ c.name)]) ∧
    (value ≠ "" → 1 ≤ (trimC value).length → (trimC value).length ≤ 128 →
      procCmd c "name" value =
        ({ c with name := trimC value },
         [Effect.println ("'name' was set to '" ++ trimC value ++ "'")])) ∧
    (procLine c "name my pad").1.name = "my" ∧
    (procLine (procLine c "name my pad").1 "ping").2 =
      [Effect.println "PONG 20221219.2 | my"] := by
  have hg0 : getValue "name my pad" 0 = "name" := by decide
  have hg1 : getValue "name my pad" 1 = "my" := by decide
  have hp0 : getValue "ping" 0 = "ping" := by decide
  have hp1 : getValue "ping" 1 = "" := by decide
  have ht : trimC "my" = "my" := by decide
  have hname : procLine c "name my pad" =
      ({ c with name := "my" }, [Effect.println "'name' was set to 'my'"]) := by
    unfold procLine
    rw [hg0, hg1]
    simp [procCmd, ht]
    decide
  refine ⟨?_, ?_, ?_, ?_⟩
  · simp [procCmd]
  · intro hv h1 h2
    simp [procCmd, hv]
    intro hx
    exact absurd hx (by omega)
  · rw [hname]
  · rw [hname]
    unfold procLine
    rw [hp0, hp1]
    simp [procCmd]
    decide

/-- Witness for C8's amended theorem: a multi-word `name` argument, then
the generic name-set shape at the single-token value `" padname "`. -/
theorem ping_and_name_set_witness :
    procCmd defaultConfig "ping" "" =
      (defaultConfig, [Effect.println "PONG 20221219.2 | minipad"]) ∧
    (" padname " ≠ "" ∧ 1 ≤ (trimC " padname ").length ∧ (trimC " padname ").length ≤ 128) ∧
    procCmd defaultConfig "name" " padname " =
      ({ defaultConfig with name := "padname" },
       [Effect.println "'name' was set to 'padname'"]) ∧
    (procLine defaultConfig "name my pad").1.name = "my" := by
  have h := ping_and_name_set defaultConfig " padname "
  refine ⟨?_, ⟨by decide, by decide, by decide⟩, ?_, h.2.2.1⟩
  · have h2 := (ping_and_name_set defaultConfig "").1
    simpa using h2
  · have h3 := h.2.1 (by decide) (by decide) (by decide)
    simpa using h3

/-! ### Helper lemmas about the command pipeline -/

lemma applySet_hystGap (c : Configuration) (key value : String) (n : Int)
    (h : c.lowerHysteresis + 8 ≤ c.upperHysteresis) :
    (applySet c key value n).1.lowerHysteresis + 8 ≤
      (applySet c key value n).1.upperHysteresis := by
  unfold applySet
  by_cases h1 : key = "rt"
  · simp only [if_pos h1]; split_ifs <;> dsimp only <;> omega
  · simp only [if_neg h1]
    by_cases h2 : key = "rts"
    · simp only [if_pos h2]; split_ifs <;> dsimp only <;> omega
    · simp only [if_neg h2]
      by_cases h3 : key = "lh"
      · simp only [if_pos h3]; split_ifs <;> dsimp only <;> omega
      · simp only [if_neg h3]
        by_cases h4 : key = "uh"
        · simp only [if_pos h4]; split_ifs <;> dsimp only <;> omega
        · simp only [if_neg h4]
          by_cases h5 : key = "key1" ∨ key = "key2"
          · simp only [if_pos h5]; split_ifs <;> dsimp only <;> omega
          · simp only [if_neg h5]
            by_cases h6 : key = "k1rp" ∨ key = "k2rp"
            · simp only [if_pos h6]; split_ifs <;> dsimp only <;> omega
            · simp only [if_neg h6]
              by_cases h7 : key = "k1dp" ∨ key = "k2dp"
              · simp only [if_pos h7]; split_ifs <;> dsimp only <;> omega
              · simp only [if_neg h7]
                by_cases h8 : key = "hid1" ∨ key = "hid2"
                · simp only [if_pos h8]; split_ifs <;> dsimp only <;> omega
                · simp only [if_neg h8]; exact h

lemma procCmd_hystGap (c : Configuration) (key value : String)
    (h : c.lowerHysteresis + TOLERANCE ≤ c.upperHysteresis) :
    (procCmd c key value).1.lowerHysteresis + TOLERANCE ≤
      (procCmd c key value).1.upperHysteresis := by
  unfold TOLERANCE at *
  unfold procCmd
  by_cases h1 : key = "reset"
  · simp only [if_pos h1]
    simp [resetPreserving, defaultConfig]
  · simp only [if_neg h1]
    by_cases h2 : key = "save"
    · simp only [if_pos h2]; exact h
    · simp only [if_neg h2]
      by_cases h3 : key = "ping"
      · simp only [if_pos h3]; exact h
      · simp only [if_neg h3]
        by_cases h4 : value = ""
        · simp only [if_pos h4]; exact h
        · simp only [if_neg h4]
          by_cases h5 : key = "name"
          · simp only [if_pos h5]
            split_ifs <;> dsimp only <;> exact h
          · simp only [if_neg h5]
            cases hcv : coerce value with
            | none => exact h
            | some n => exact applySet_hystGap c key value n h

lemma procLines_hystGap (lines : List String) :
    ∀ c : Configuration, c.lowerHysteresis + TOLERANCE ≤ c.upperHysteresis →
      (procLines c lines).1.lowerHysteresis + TOLERANCE ≤
        (procLines c lines).1.upperHysteresis := by
  induction lines with
  | nil => intro c h; exact h
  | cons line rest ih =>
      intro c h
      exact ih _ (procCmd_hystGap c (getValue line 0) (getValue line 1) h)

/-- C3.  The cross-field invariant `lowerHysteresis + TOLERANCE ≤
upperHysteresis` is preserved by every sequence of processed command
lines; concretely, from the default configuration `lh 100` is accepted,
then `uh 105` is rejected leaving both fields unchanged, while `uh 200`
and then `lh 100` are accepted. -/
theorem hysteresis_gap_invariant (cfg : Configuration) (lines : List String)
    (h : cfg.lowerHysteresis + TOLERANCE ≤ cfg.upperHysteresis) :
    ((procLines cfg lines).1.lowerHysteresis + TOLERANCE ≤
      (procLines cfg lines).1.upperHysteresis) ∧
    procLine defaultConfig "lh 100" =
      ({ defaultConfig with lowerHysteresis := 100 },
       [Effect.println "'lowerHysteresis' was set to '100'"]) ∧
    procLine { defaultConfig with lowerHysteresis := 100 } "uh 105" =
      ({ defaultConfig with lowerHysteresis := 100 },
       [Effect.println "The value 'upperHysteresis' must be at least 8 more than the value 'lowerHysteresis'"]) ∧
    procLine { defaultConfig with lowerHysteresis := 100 } "uh 200" =
      ({ defaultConfig with lowerHysteresis := 100, upperHysteresis := 200 },
       [Effect.println "'upperHysteresis' was set to '200'"]) ∧
    procLine { defaultConfig with lowerHysteresis := 100, upperHysteresis := 200 } "lh 100" =
      ({ defaultConfig with lowerHysteresis := 100, upperHysteresis := 200 },
       [Effect.println "'lowerHysteresis' was set to '100'"]) :=
  ⟨procLines_hystGap lines cfg h, by decide, by decide, by decide, by decide⟩

/-- Witness for C3 from the default configuration, running the scenario's
first two lines. -/
theorem hysteresis_gap_invariant_witness :
    (defaultConfig.lowerHysteresis + TOLERANCE ≤ defaultConfig.upperHysteresis) ∧
    ((procLines defaultConfig ["lh 100", "uh 105"]).1.lowerHysteresis + TOLERANCE ≤
      (procLines defaultConfig ["lh 100", "uh 105"]).1.upperHysteresis) :=
  ⟨by decide,
   (hysteresis_gap_invariant defaultConfig ["lh 100", "uh 105"] (by decide)).1⟩

lemma coerce_some_ne_empty (value : String) (n : Int)
    (hc : coerce value = some n) : value ≠ "" := by
  intro he
  have h0 : coerce "" = none := by decide
  rw [he, h0] at hc
  cases hc

lemma procCmd_silent_unparseable (c : Configuration) (key value : String)
    (hv : value ≠ "") (h1 : key ≠ "reset") (h2 : key ≠ "save") (h3 : key ≠ "ping")
    (h4 : key ≠ "name") (hc : coerce value = none) :
    procCmd c key value = (c, []) := by
  unfold procCmd
  rw [if_neg h1, if_neg h2, if_neg h3, if_neg hv, if_neg h4, hc]

lemma procCmd_silent_unknown_key (c : Configuration) (key value : String)
    (hv : value ≠ "")
    (hk : key ∉ (["reset", "save", "ping", "name"] ++ setKeys : List String)) :
    procCmd c key value = (c, []) := by
  simp only [setKeys, List.mem_append, List.mem_cons, List.not_mem_nil, or_false] at hk
  push_neg at hk
  obtain ⟨⟨hr, hs, hp, hn⟩, hrt, hrts, hlh, huh, hk1, hk2, hk1rp, hk2rp, hk1dp, hk2dp,
    hhid1, hhid2⟩ := hk
  unfold procCmd
  rw [if_neg hr, if_neg hs, if_neg hp, if_neg hv, if_neg hn]
  cases hcv : coerce value with
  | none => rfl
  | some n =>
      dsimp only
      unfold applySet
      rw [if_neg hrt, if_neg hrts, if_neg hlh, if_neg huh,
        if_neg (not_or.mpr ⟨hk1, hk2⟩), if_neg (not_or.mpr ⟨hk1rp, hk2rp⟩),
        if_neg (not_or.mpr ⟨hk1dp, hk2dp⟩), if_neg (not_or.mpr ⟨hhid1, hhid2⟩)]

lemma procCmd_silent_unknown_get (c : Configuration) (key : String)
    (hk : key ∉ (["reset", "save", "ping", "get", "name", "tol"] ++ setKeys : List String)) :
    procCmd c key "" = (c, []) := by
  simp only [setKeys, List.mem_append, List.mem_cons, List.not_mem_nil, or_false] at hk
  push_neg at hk
  obtain ⟨⟨hr, hs, hp, hg, hn, ht⟩, hrt, hrts, hlh, huh, hk1, hk2, hk1rp, hk2rp, hk1dp,
    hk2dp, hhid1, hhid2⟩ := hk
  unfold procCmd
  rw [if_neg hr, if_neg hs, if_neg hp, if_pos rfl]
  unfold getReport
  rw [if_neg (not_or.mpr ⟨hrt, hg⟩), if_neg (not_or.mpr ⟨hrts, hg⟩),
    if_neg (not_or.mpr ⟨hlh, hg⟩), if_neg (not_or.mpr ⟨huh, hg⟩),
    if_neg (not_or.mpr ⟨hk1, hg⟩), if_neg (not_or.mpr ⟨hk2, hg⟩),
    if_neg (not_or.mpr ⟨hk1rp, hg⟩), if_neg (not_or.mpr ⟨hk2rp, hg⟩),
    if_neg (not_or.mpr ⟨hk1dp, hg⟩), if_neg (not_or.mpr ⟨hk2dp, hg⟩),
    if_neg (not_or.mpr ⟨hhid1, hg⟩), if_neg (not_or.mpr ⟨hhid2, hg⟩),
    if_neg (not_or.mpr ⟨hn, hg⟩), if_neg (not_or.mpr ⟨ht, hg⟩), if_neg hg]
  rfl

lemma procCmd_to_applySet (c : Configuration) (key value : String) (n : Int)
    (h1 : key ≠ "reset") (h2 : key ≠ "save") (h3 : key ≠ "ping") (h4 : key ≠ "name")
    (hv : value ≠ "") (hc : coerce value = some n) :
    procCmd c key value = applySet c key value n := by
  unfold procCmd
  rw [if_neg h1, if_neg h2, if_neg h3, if_neg hv, if_neg h4, hc]

lemma validSet_false_elim (c : Configuration) (key : String) (n : Int) (P : Prop)
    [Decidable P] (hspec : validSet c key n = decide P)
    (hval : validSet c key n = false) : ¬ P := by
  intro hp
  rw [hspec] at hval
  simp [hp] at hval

lemma procCmd_validation_reject (c : Configuration) (key value : String) (n : Int)
    (hk : key ∈ setKeys) (hc : coerce value = some n) (hval : validSet c key n = false) :
    procCmd c key value = (c, [Effect.println (rejectMsg key n)]) := by
  have hv : value ≠ "" := coerce_some_ne_empty value n hc
  have hrw : ∀ k : String, k ≠ "reset" → k ≠ "save" → k ≠ "ping" → k ≠ "name" →
      procCmd c k value = applySet c k value n :=
    fun k a b d e => procCmd_to_applySet c k value n a b d e hv hc
  simp only [setKeys] at hk
  fin_cases hk
  · -- key = "rt"
    rw [hrw "rt" (by decide) (by decide) (by decide) (by decide)]
    have hnv := validSet_false_elim c "rt" n (n = 0 ∨ n = 1) (by simp [validSet]) hval
    unfold applySet
    rw [if_pos rfl, if_pos (by omega)]
    unfold rejectMsg
    rw [if_pos rfl]
  · -- key = "rts"
    rw [hrw "rts" (by decide) (by decide) (by decide) (by decide)]
    have hnv := validSet_false_elim c "rts" n (8 ≤ n ∧ n ≤ 400) (by simp [validSet]) hval
    unfold applySet
    rw [if_neg (by decide), if_pos rfl, if_pos (by omega)]
    unfold rejectMsg
    rw [if_neg (by decide), if_pos rfl]
  · -- key = "lh"
    rw [hrw "lh" (by decide) (by decide) (by decide) (by decide)]
    have hnv := validSet_false_elim c "lh" n (0 ≤ n ∧ n ≤ 392 ∧ n ≤ c.upperHysteresis - 8)
      (by simp [validSet]) hval
    unfold applySet
    rw [if_neg (by decide), if_neg (by decide), if_pos rfl]
    by_cases hrange : n < 0 ∨ n > 392
    · rw [if_pos hrange]
      unfold rejectMsg
      rw [if_neg (by decide), if_neg (by decide), if_pos rfl, if_pos hrange]
    · rw [if_neg hrange, if_pos (by omega)]
      unfold rejectMsg
      rw [if_neg (by decide), if_neg (by decide), if_pos rfl, if_neg hrange]
  · -- key = "uh"
    rw [hrw "uh" (by decide) (by decide) (by decide) (by decide)]
    have hnv := validSet_false_elim c "uh" n (0 ≤ n ∧ n ≤ 392 ∧ c.lowerHysteresis + 8 ≤ n)
      (by simp [validSet]) hval
    unfold applySet
    rw [if_neg (by decide), if_neg (by decide), if_neg (by decide), if_pos rfl]
    by_cases hrange : n < 0 ∨ n > 392
    · rw [if_pos hrange]
      unfold rejectMsg
      rw [if_neg (by decide), if_neg (by decide), if_neg (by decide), if_pos rfl,
        if_pos hrange]
    · rw [if_neg hrange, if_pos (by omega)]
      unfold rejectMsg
      rw [if_neg (by decide), if_neg (by decide), if_neg (by decide), if_pos rfl,
        if_neg hrange]
  · -- key = "key1"
    rw [hrw "key1" (by decide) (by decide) (by decide) (by decide)]
    have hnv := validSet_false_elim c "key1" n (97 ≤ n ∧ n ≤ 122) (by simp [validSet]) hval
    unfold applySet
    rw [if_neg (by decide), if_neg (by decide), if_neg (by decide), if_neg (by decide),
      if_pos (by decide : ("key1" : String) = "key1" ∨ ("key1" : String) = "key2"),
      if_pos (by omega)]
    unfold rejectMsg
    rw [if_neg (by decide), if_neg (by decide), if_neg (by decide), if_neg (by decide),
      if_pos (by decide : ("key1" : String) = "key1" ∨ ("key1" : String) = "key2")]
  · -- key = "key2"
    rw [hrw "key2" (by decide) (by decide) (by decide) (by decide)]
    have hnv := validSet_false_elim c "key2" n (97 ≤ n ∧ n ≤ 122) (by simp [validSet]) hval
    unfold applySet
    rw [if_neg (by decide), if_neg (by decide), if_neg (by decide), if_neg (by decide),
      if_pos (by decide : ("key2" : String) = "key1" ∨ ("key2" : String) = "key2"),
      if_pos (by omega)]
    unfold rejectMsg
    rw [if_neg (by decide), if_neg (by decide), if_neg (by decide), if_neg (by decide),
      if_pos (by decide : ("key2" : String) = "key1" ∨ ("key2" : String) = "key2")]
  · -- key = "k1rp"
    rw [hrw "k1rp" (by decide) (by decide) (by decide) (by decide)]
    have hnv := validSet_false_elim c "k1rp" n (0 ≤ n ∧ n ≤ 1023) (by simp [validSet]) hval
    unfold applySet
    rw [if_neg (by decide), if_neg (by decide), if_neg (by decide), if_neg (by decide),
      if_neg (by decide), if_pos (by decide : ("k1rp" : String) = "k1rp" ∨ ("k1rp" : String) = "k2rp"),
      if_pos (by omega)]
    unfold rejectMsg
    rw [if_neg (by decide), if_neg (by decide), if_neg (by decide), if_neg (by decide),
      if_neg (by decide), if_pos (by decide)]
  · -- key = "k2rp"
    rw [hrw "k2rp" (by decide) (by decide) (by decide) (by decide)]
    have hnv := validSet_false_elim c "k2rp" n (0 ≤ n ∧ n ≤ 1023) (by simp [validSet]) hval
    unfold applySet
    rw [if_neg (by decide), if_neg (by decide), if_neg (by decide), if_neg (by decide),
      if_neg (by decide), if_pos (by decide : ("k2rp" : String) = "k1rp" ∨ ("k2rp" : String) = "k2rp"),
      if_pos (by omega)]
    unfold rejectMsg
    rw [if_neg (by decide), if_neg (by decide), if_neg (by decide), if_neg (by decide),
      if_neg (by decide), if_pos (by decide)]
  · -- key = "k1dp"
    rw [hrw "k1dp" (by decide) (by decide) (by decide) (by decide)]
    have hnv := validSet_false_elim c "k1dp" n (0 ≤ n ∧ n ≤ 1023) (by simp [validSet]) hval
    unfold applySet
    rw [if_neg (by decide), if_neg (by decide), if_neg (by decide), if_neg (by decide),
      if_neg (by decide), if_neg (by decide),
      if_pos (by decide : ("k1dp" : String) = "k1dp" ∨ ("k1dp" : String) = "k2dp"),
      if_pos (by omega)]
    unfold rejectMsg
    rw [if_neg (by decide), if_neg (by decide), if_neg (by decide), if_neg (by decide),
      if_neg (by decide), if_pos (by decide)]
  · -- key = "k2dp"
    rw [hrw "k2dp" (by decide) (by decide) (by decide) (by decide)]
    have hnv := validSet_false_elim c "k2dp" n (0 ≤ n ∧ n ≤ 1023) (by simp [validSet]) hval
    unfold applySet
    rw [if_neg (by decide), if_neg (by decide), if_neg (by decide), if_neg (by decide),
      if_neg (by decide), if_neg (by decide),
      if_pos (by decide : ("k2dp" : String) = "k1dp" ∨ ("k2dp" : String) = "k2dp"),
      if_pos (by omega)]
    unfold rejectMsg
    rw [if_neg (by decide), if_neg (by decide), if_neg (by decide), if_neg (by decide),
      if_neg (by decide), if_pos (by decide)]
  · -- key = "hid1"
    rw [hrw "hid1" (by decide) (by decide) (by decide) (by decide)]
    have hnv := validSet_false_elim c "hid1" n (n = 0 ∨ n = 1) (by simp [validSet]) hval
    unfold applySet
    rw [if_neg (by decide), if_neg (by decide), if_neg (by decide), if_neg (by decide),
      if_neg (by decide), if_neg (by decide), if_neg (by decide),
      if_pos (by decide : ("hid1" : String) = "hid1" ∨ ("hid1" : String) = "hid2"),
      if_pos (by omega)]
    unfold rejectMsg
    rw [if_neg (by decide), if_neg (by decide), if_neg (by decide), if_neg (by decide),
      if_neg (by decide), if_neg (by decide)]
  · -- key = "hid2"
    rw [hrw "hid2" (by decide) (by decide) (by decide) (by decide)]
    have hnv := validSet_false_elim c "hid2" n (n = 0 ∨ n = 1) (by simp [validSet]) hval
    unfold applySet
    rw [if_neg (by decide), if_neg (by decide), if_neg (by decide), if_neg (by decide),
      if_neg (by decide), if_neg (by decide), if_neg (by decide),
      if_pos (by decide : ("hid2" : String) = "hid1" ∨ ("hid2" : String) = "hid2"),
      if_pos (by omega)]
    unfold rejectMsg
    rw [if_neg (by decide), if_neg (by decide), if_neg (by decide), if_neg (by decide),
      if_neg (by decide), if_neg (by decide)]

/-- C6.  Command lines whose value token does not coerce, or whose field
key is unrecognized, are silently ignored: no response is emitted and the
configuration is unchanged (with or without a value token).  When the
token coerces but a validation rule is violated, the specific
human-readable reason for that field is reported and the configuration is
left unmodified; in particular `rts 7` is rejected with the sensitivity
range message and the sensitivity keeps its prior value. -/
theorem silent_skips_and_validation_rejections :
    (∀ (c : Configuration) (key value : String), value ≠ "" →
      key ∉ (["reset", "save", "ping", "name"] : List String) → coerce value = none →
      procCmd c key value = (c, [])) ∧
    (∀ (c : Configuration) (key value : String), value ≠ "" →
      key ∉ (["reset", "save", "ping", "name"] ++ setKeys : List String) →
      procCmd c key value = (c, [])) ∧
    (∀ (c : Configuration) (key : String),
      key ∉ (["reset", "save", "ping", "get", "name", "tol"] ++ setKeys : List String) →
      procCmd c key "" = (c, [])) ∧
    (∀ (c : Configuration) (key value : String) (n : Int), key ∈ setKeys →
      coerce value = some n → validSet c key n = false →
      procCmd c key value = (c, [Effect.println (rejectMsg key n)])) ∧
    (∀ c : Configuration, procLine c "rts 7" =
      (c, [Effect.println "Allowed range for 'rapidTriggerSensitivity' is 8-400"])) := by
  refine ⟨?_, ?_, ?_, ?_, ?_⟩
  · intro c key value hv hk hc
    simp only [List.mem_cons, List.not_mem_nil, or_false] at hk
    push_neg at hk
    exact procCmd_silent_unparseable c key value hv hk.1 hk.2.1 hk.2.2.1 hk.2.2.2 hc
  · intro c key value hv hk
    exact procCmd_silent_unknown_key c key value hv hk
  · intro c key hk
    exact procCmd_silent_unknown_get c key hk
  · intro c key value n hk hc hval
    exact procCmd_validation_reject c key value n hk hc hval
  · intro c
    unfold procLine
    rw [(by decide : getValue "rts 7" 0 = "rts"), (by decide : getValue "rts 7" 1 = "7")]
    rw [procCmd_validation_reject c "rts" "7" 7 (by decide) (by decide) (by simp [validSet])]
    rw [(by decide : rejectMsg "rts" 7 = "Allowed range for 'rapidTriggerSensitivity' is 8-400")]

/-- Witness for C6: an unparseable token on a known field, an unknown
field key with and without a value token, and the rejected `rts 7`. -/
theorem silent_skips_and_validation_rejections_witness :
    procCmd defaultConfig "lh" "12x" = (defaultConfig, []) ∧
    procCmd defaultConfig "blah" "5" = (defaultConfig, []) ∧
    procCmd defaultConfig "blah" "" = (defaultConfig, []) ∧
    procCmd defaultConfig "rts" "7" = (defaultConfig, [Effect.println (rejectMsg "rts" 7)]) ∧
    procLine defaultConfig "rts 7" =
      (defaultConfig, [Effect.println "Allowed range for 'rapidTriggerSensitivity' is 8-400"]) := by
  have h := silent_skips_and_validation_rejections
  exact ⟨h.1 defaultConfig "lh" "12x" (by decide) (by decide) (by decide),
    h.2.1 defaultConfig "blah" "5" (by decide) (by decide),
    h.2.2.1 defaultConfig "blah" (by decide),
    h.2.2.2.1 defaultConfig "rts" "7" 7 (by decide) (by decide) (by decide),
    h.2.2.2.2 defaultConfig⟩

/-- C7.  The value token of a numeric/boolean set command is coerced in
exactly this order: the `atoi` integer is used iff its canonical decimal
text equals the token; otherwise a one-character token yields its
character code; otherwise the literals `true`/`false` yield `1`/`0`; any
other token makes `coerce` fail, and the command is skipped silently
(no mutation, no output). -/
theorem coercion_order (t : String) (c : Configuration) (key : String) :
    (toString (atoiC t) = t → coerce t = some (atoiC t)) ∧
    (toString (atoiC t) ≠ t → t.length = 1 → coerce t = some (charCodeOf t)) ∧
    (toString (atoiC t) ≠ t → t.length ≠ 1 → t = "true" → coerce t = some 1) ∧
    (toString (atoiC t) ≠ t → t.length ≠ 1 → t ≠ "true" → t = "false" →
      coerce t = some 0) ∧
    (toString (atoiC t) ≠ t → t.length ≠ 1 → t ≠ "true" → t ≠ "false" →
      coerce t = none) ∧
    (coerce t = none → t ≠ "" → key ≠ "reset" → key ≠ "save" → key ≠ "ping" →
      key ≠ "name" → procCmd c key t = (c, [])) := by
  refine ⟨?_, ?_, ?_, ?_, ?_, ?_⟩
  · intro h
    unfold coerce
    rw [if_pos h]
  · intro h hl
    unfold coerce
    rw [if_neg h, if_pos hl]
  · intro h hl ht
    unfold coerce
    rw [if_neg h, if_neg hl, if_pos ht]
  · intro h hl ht hf
    unfold coerce
    rw [if_neg h, if_neg hl, if_neg ht, if_pos hf]
  · intro h hl ht hf
    unfold coerce
    rw [if_neg h, if_neg hl, if_neg ht, if_neg hf]
  · intro hc hv h1 h2 h3 h4
    exact procCmd_silent_unparseable c key t hv h1 h2 h3 h4 hc

/-- Witness for C7 on the tokens `"7"`, `"x"`, `"true"`, `"false"` and
`"007"` (the last one silently skipped by a set command). -/
theorem coercion_order_witness :
    coerce "7" = some (atoiC "7") ∧
    coerce "x" = some (charCodeOf "x") ∧
    coerce "true" = some 1 ∧
    coerce "false" = some 0 ∧
    coerce "007" = none ∧
    procCmd defaultConfig "lh" "007" = (defaultConfig, []) := by
  refine ⟨(coercion_order "7" defaultConfig "lh").1 (by decide),
    (coercion_order "x" defaultConfig "lh").2.1 (by decide) (by decide),
    (coercion_order "true" defaultConfig "lh").2.2.1 (by decide) (by decide) (by decide),
    (coercion_order "false" defaultConfig "lh").2.2.2.1 (by decide) (by decide) (by decide)
      (by decide),
    (coercion_order "007" defaultConfig "lh").2.2.2.2.1 (by decide) (by decide) (by decide)
      (by decide),
    (coercion_order "007" defaultConfig "lh").2.2.2.2.2 (by decide) (by decide) (by decide)
      (by decide) (by decide) (by decide)⟩
